import Mathlib

/-!
Shallow embedding of the dify-client-rust request layer (src/lib.rs) and
proofs of the specified properties.  JSON values, the request builder, the
chunked file reader and the endpoint facades are translated from the source;
network transmission and URL parsing are abstracted, with the built request
recorded as data.
-/

namespace Dify

/-- Models serde_json::Value: the JSON values built by the json! macro and
passed around as request payloads.  Objects are association lists of
key/value pairs; numbers are restricted to integers, which covers every
payload the library builds. -/
inductive JValue where
  | null : JValue
  | bool : Bool → JValue
  | num : Int → JValue
  | str : String → JValue
  | arr : List JValue → JValue
  | obj : List (String × JValue) → JValue

/-- Lookup of a key in a JSON object association list, as serde_json Map get. -/
def mapLookup {α : Type} : List (String × α) → String → Option α
  | [], _ => none
  | (k, v) :: rest, key => if k = key then some v else mapLookup rest key

/-- Models serde_json Map insert: replaces the value when the key is present,
otherwise adds the pair. -/
def mapInsert : List (String × JValue) → String → JValue → List (String × JValue)
  | [], key, v => [(key, v)]
  | (k, w) :: rest, key, v =>
      if k = key then (key, v) :: rest else (k, w) :: mapInsert rest key v

/-- Removes every pair with the given key from a JSON object association list. -/
def eraseKey : List (String × JValue) → String → List (String × JValue)
  | [], _ => []
  | (k, v) :: rest, key =>
      if k = key then eraseKey rest key else (k, v) :: eraseKey rest key

/-- Models Value::as_object on an immutable view: some map when the value is a
JSON object, none otherwise. -/
def JValue.asObject : JValue → Option (List (String × JValue))
  | .obj m => some m
  | _ => none

/-- Models the pattern data.as_object_mut().unwrap().insert(key, v) used by the
facades: none models the unwrap panic when the value is not an object. -/
def insertIntoValue (v : JValue) (key : String) (x : JValue) : Option JValue :=
  match v.asObject with
  | some m => some (.obj (mapInsert m key x))
  | none => none

/-- Lookup of a key in a JSON value, none when the value is not an object. -/
def jvLookup (v : JValue) (key : String) : Option JValue :=
  match v with
  | .obj m => mapLookup m key
  | _ => none

/-- Lookup through an optional JSON body. -/
def bodyLookup (b : Option JValue) (key : String) : Option JValue :=
  match b with
  | some v => jvLookup v key
  | none => none

/-- Erases a key inside an optional JSON object body, other shapes unchanged. -/
def bodyErase (b : Option JValue) (key : String) : Option JValue :=
  match b with
  | some (.obj m) => some (.obj (eraseKey m key))
  | other => other

/-- Models the ResponseMode enum of lib.rs lines 202 to 209.  The Rust
variants are named Block and Stream. -/
inductive ResponseMode where
  | Block : ResponseMode
  | Stream : ResponseMode
deriving DecidableEq, BEq, Repr

/-- Wire string of a ResponseMode under its serde rename attributes:
Block renames to blocking and Stream renames to streaming. -/
def ResponseMode.wireString : ResponseMode → String
  | .Block => "blocking"
  | .Stream => "streaming"

/-- Models the derived serde Serialize impl producing a JSON value: a unit
variant serializes to the JSON string given by its rename attribute. -/
def ResponseMode.serializeJson (m : ResponseMode) : JValue :=
  .str m.wireString

/-- Models the derived serde Deserialize impl on a JSON string payload:
the rename strings parse back to their variants, anything else fails. -/
def ResponseMode.fromWireString : String → Option ResponseMode
  | "blocking" => some .Block
  | "streaming" => some .Stream
  | _ => none

/-- Models serde_json::to_string applied to a ResponseMode: the serialized
JSON TEXT of the value, which is the wire string enclosed in quote
characters, since the serialization of a unit variant is a JSON string. -/
def serdeJsonToString (m : ResponseMode) : String :=
  "\"" ++ m.wireString ++ "\""

/-- Models the Display impl of lib.rs lines 210 to 215: it formats the value
as serde_json::to_string of it, so the result keeps the JSON quotes. -/
def ResponseMode.displayString (m : ResponseMode) : String :=
  serdeJsonToString m

/-- Chunk size of the read buffer in async_read_file_to_vec (lib.rs line 17). -/
def CHUNK_SIZE : Nat := 1024

/-- Models the read loop of async_read_file_to_vec on a file whose remaining
contents are the given byte list: each file.read fills the buffer with up to
CHUNK_SIZE of the remaining bytes, a zero length read breaks the loop, and
each filled chunk is appended to the accumulator. -/
def chunkedReadLoop : List Nat → List Nat → List Nat
  | [], acc => acc
  | b :: rest, acc =>
      chunkedReadLoop ((b :: rest).drop CHUNK_SIZE) (acc ++ (b :: rest).take CHUNK_SIZE)
termination_by remaining _ => remaining.length
decreasing_by
  simp [CHUNK_SIZE, List.length_drop]
  omega

/-- Possible outcomes the file system gives for a path: the open fails, the
open succeeds but some chunk read fails after a number of good bytes, or the
whole contents are readable. -/
inductive FileOutcome where
  | openError : FileOutcome
  | readError : List Nat → FileOutcome
  | ok : List Nat → FileOutcome
deriving DecidableEq, Repr

/-- True exactly when the outcome is a fully readable file. -/
def FileOutcome.isOk : FileOutcome → Bool
  | .ok _ => true
  | _ => false

/-- Error kinds of the file reader, mirroring std io errors by failure site. -/
inductive FsError where
  | openFailed : FsError
  | readFailed : FsError
deriving DecidableEq, Repr

/-- Models async_read_file_to_vec (lib.rs lines 14 to 29) over a file system
map from paths to outcomes: an open failure or a chunk read failure
propagates as an error, a readable file is drained by the chunked loop. -/
def async_read_file_to_vec (fs : String → FileOutcome) (file_path : String) :
    Except FsError (List Nat) :=
  match fs file_path with
  | .openError => .error .openFailed
  | .readError _ => .error .readFailed
  | .ok content => .ok (chunkedReadLoop content [])

/-- Spec side definition for the refinement claim, following the words of the
spec: reading the whole file of size N at once yields exactly its N bytes. -/
def readWholeFileAtOnce (content : List Nat) : List Nat :=
  content

/-- Body of a built request: none, a JSON payload, or a multipart form whose
data field holds the serialized metadata JSON and whose file part holds the
raw bytes read from the file. -/
inductive RequestBody where
  | empty : RequestBody
  | jsonBody : JValue → RequestBody
  | multipartBody : JValue → List Nat → RequestBody

/-- A built HTTP request as assembled by the client: method, full URL,
headers in insertion order, optional query parameters value, and body. -/
structure Request where
  method : String
  url : String
  headers : List (String × String)
  queryParams : Option JValue
  body : RequestBody

/-- Validity of one byte of an HTTP header value, as the http crate checks in
HeaderValue::from_str: visible characters, space and horizontal tab. -/
def validHeaderByte (b : Nat) : Bool :=
  (32 ≤ b && b != 127) || b == 9

/-- Validity of a header value string, byte by byte. -/
def validHeaderValue (s : String) : Bool :=
  s.toList.all (fun c => validHeaderByte c.toNat)

/-- Models DifyClient::send_request (lib.rs lines 41 to 79) up to the network
call: the header map gets Content-Type application/json, the URL is the base
URL concatenated with the endpoint, bearer_auth adds the Authorization
header, an optional JSON body and optional query parameters are attached.
The stream flag is a parameter of the source function and is translated
as such; the source never reads it. -/
def send_request (api_key base_url method endpoint : String)
    (json : Option JValue) (params : Option JValue) (stream : Bool) : Request :=
  { method := method
    url := base_url ++ endpoint
    headers := [("Content-Type", "application/json"),
                ("Authorization", "Bearer " ++ api_key)]
    queryParams := params
    body := match json with
      | some v => RequestBody.jsonBody v
      | none => RequestBody.empty }

/-- Models the request built by the multipart branch of
send_request_with_files once the file bytes are in hand: the only manually
set header is Authorization, and attaching the multipart form sets the
Content-Type from the generated boundary.  The boundary is a parameter
standing for the randomly generated one. -/
def multipartRequest (api_key base_url boundary method endpoint : String)
    (data : JValue) (fileBytes : List Nat) : Request :=
  { method := method
    url := base_url ++ endpoint
    headers := [("Authorization", "Bearer " ++ api_key),
                ("Content-Type", "multipart/form-data; boundary=" ++ boundary)]
    queryParams := none
    body := RequestBody.multipartBody data fileBytes }

/-- Error kinds of the multipart construction path: the bearer header value
is rejected by HeaderValue::from_str, or the local file cannot be read. -/
inductive DifyError where
  | invalidHeaderValue : DifyError
  | fileUnavailable : DifyError
deriving DecidableEq, Repr

/-- Result of one call of send_request_with_files together with its observable
effects: how many file open attempts and how many network sends happened. -/
structure MultipartResult where
  result : Except DifyError Request
  openAttempts : Nat
  networkSends : Nat

/-- Models DifyClient::send_request_with_files (lib.rs lines 81 to 111): the
bearer Authorization header is built first with HeaderValue::from_str, then
the file is read once by async_read_file_to_vec; a file error propagates
before any network send, otherwise the multipart request is built and sent
exactly once. -/
def send_request_with_files (api_key base_url : String) (fs : String → FileOutcome)
    (boundary method endpoint : String) (data : JValue) (file_path : String) :
    MultipartResult :=
  if validHeaderValue ("Bearer " ++ api_key) then
    match async_read_file_to_vec fs file_path with
    | .error _ =>
        { result := .error .fileUnavailable, openAttempts := 1, networkSends := 0 }
    | .ok bytes =>
        { result := .ok (multipartRequest api_key base_url boundary method endpoint data bytes),
          openAttempts := 1, networkSends := 1 }
  else
    { result := .error .invalidHeaderValue, openAttempts := 0, networkSends := 0 }

/-- Models the body construction of ChatClient::create_chat_message (lib.rs
lines 224 to 263): the json! macro builds an object with inputs, query, user
and response_mode, where response_mode is the Display string of the mode;
then conversation_id and files are inserted through as_object_mut unwrap
when present.  The none result models an unwrap panic. -/
def createChatMessageBody (inputs : JValue) (query user : String)
    (response_mode : ResponseMode) (conversation_id : Option String)
    (files : Option JValue) : Option JValue :=
  let data : JValue := .obj [("inputs", inputs), ("query", .str query),
    ("user", .str user), ("response_mode", .str response_mode.displayString)]
  let afterCid : Option JValue :=
    match conversation_id with
    | some cid => insertIntoValue data "conversation_id" (.str cid)
    | none => some data
  match afterCid with
  | none => none
  | some d =>
    match files with
    | some fsv => insertIntoValue d "files" fsv
    | none => some d

/-- Models ChatClient::create_chat_message up to the network call: the body is
handed to send_request for POST on /chat-messages, streaming exactly when
the mode is Stream. -/
def create_chat_message (api_key base_url : String) (inputs : JValue)
    (query user : String) (response_mode : ResponseMode)
    (conversation_id : Option String) (files : Option JValue) : Option Request :=
  (createChatMessageBody inputs query user response_mode conversation_id files).map
    (fun data => send_request api_key base_url "POST" "/chat-messages"
      (some data) none (response_mode == ResponseMode.Stream))

/-- Models the body construction of CompletionClient::create_completion_message
(lib.rs lines 167 to 195): response_mode arrives as a plain string there, and
files is inserted through as_object_mut unwrap when present. -/
def createCompletionMessageBody (inputs : JValue) (response_mode user : String)
    (files : Option JValue) : Option JValue :=
  let data : JValue := .obj [("inputs", inputs),
    ("response_mode", .str response_mode), ("user", .str user)]
  match files with
  | some fsv => insertIntoValue data "files" fsv
  | none => some data

/-- Models the body built by WorkflowClient::run (lib.rs lines 277 to 298):
response_mode is embedded through its serde Serialize impl, and user falls
back to abc-123 when the caller gives none. -/
def workflowRunBody (inputs : JValue) (response_mode : ResponseMode)
    (user : Option String) : JValue :=
  .obj [("inputs", inputs),
    ("response_mode", ResponseMode.serializeJson response_mode),
    ("user", .str (user.getD "abc-123"))]

/-- Models WorkflowClient::run up to the network call: the body is handed to
send_request for POST on /workflows/run with stream false. -/
def workflow_run (api_key base_url : String) (inputs : JValue)
    (response_mode : ResponseMode) (user : Option String) : Request :=
  send_request api_key base_url "POST" "/workflows/run"
    (some (workflowRunBody inputs response_mode user)) none false

end Dify

namespace Dify

/-- Helper: the chunked read loop returns the accumulator followed by every
remaining byte. -/
theorem chunkedReadLoop_eq_append : ∀ (remaining acc : List Nat),
    chunkedReadLoop remaining acc = acc ++ remaining
  | [], acc => by simp [chunkedReadLoop]
  | b :: rest, acc => by
      rw [chunkedReadLoop]
      rw [chunkedReadLoop_eq_append (List.drop CHUNK_SIZE (b :: rest))
        (acc ++ List.take CHUNK_SIZE (b :: rest))]
      rw [List.append_assoc, List.take_append_drop]
termination_by remaining _ => remaining.length
decreasing_by
  simp [CHUNK_SIZE, List.length_drop]
  omega

/-- C1: the chat facade called with inputs as the empty object, query hi,
user u1, mode Blocking, no conversation_id and no files builds a body whose
keys are exactly inputs, query, user and response_mode with no
conversation_id key, but the response_mode value is the QUOTED string, not
the bare string blocking: the Display impl routes through
serde_json::to_string, which keeps the JSON quotes.  The claimed body is
therefore not produced; this theorem records the divergence. -/
theorem chat_blocking_body_response_mode_quoted :
    createChatMessageBody (JValue.obj []) "hi" "u1" ResponseMode.Block none none =
      some (JValue.obj [("inputs", JValue.obj []), ("query", JValue.str "hi"),
        ("user", JValue.str "u1"), ("response_mode", JValue.str "\"blocking\"")]) ∧
    bodyLookup (createChatMessageBody (JValue.obj []) "hi" "u1" ResponseMode.Block none none)
      "conversation_id" = none ∧
    bodyLookup (createChatMessageBody (JValue.obj []) "hi" "u1" ResponseMode.Block none none)
      "response_mode" ≠ some (JValue.str "blocking") := by
  refine ⟨rfl, rfl, ?_⟩
  intro h
  simp [createChatMessageBody, bodyLookup, jvLookup, mapLookup,
    ResponseMode.displayString, serdeJsonToString, ResponseMode.wireString] at h

/-- C2: both construction paths carry the Authorization header with value
Bearer followed by the api key, and the JSON path sets Content-Type to
application/json. -/
theorem every_request_carries_bearer_auth
    (api_key base_url method endpoint boundary : String)
    (json params : Option JValue) (stream : Bool)
    (data : JValue) (fileBytes : List Nat) :
    mapLookup (send_request api_key base_url method endpoint json params stream).headers
      "Authorization" = some ("Bearer " ++ api_key) ∧
    mapLookup (send_request api_key base_url method endpoint json params stream).headers
      "Content-Type" = some "application/json" ∧
    mapLookup (multipartRequest api_key base_url boundary method endpoint data fileBytes).headers
      "Authorization" = some ("Bearer " ++ api_key) :=
  ⟨rfl, rfl, rfl⟩

/-- C3: on a readable file, the chunked accumulating read of
async_read_file_to_vec returns exactly the bytes of the file, identical to
reading the whole file at once, for every size. -/
theorem chunked_read_equals_whole_read (fs : String → FileOutcome)
    (file_path : String) (content : List Nat)
    (h : fs file_path = FileOutcome.ok content) :
    async_read_file_to_vec fs file_path = Except.ok (readWholeFileAtOnce content) ∧
    (readWholeFileAtOnce content).length = content.length := by
  refine ⟨?_, rfl⟩
  simp [async_read_file_to_vec, h, readWholeFileAtOnce, chunkedReadLoop_eq_append]

/-- Witness for C3 at a concrete file of 1025 bytes, one more than the chunk
size. -/
theorem chunked_read_equals_whole_read_witness :
    (fun _ : String => FileOutcome.ok (List.replicate 1025 7)) "f"
        = FileOutcome.ok (List.replicate 1025 7) ∧
    (async_read_file_to_vec (fun _ => FileOutcome.ok (List.replicate 1025 7)) "f"
        = Except.ok (readWholeFileAtOnce (List.replicate 1025 7)) ∧
      (readWholeFileAtOnce (List.replicate 1025 7)).length = (List.replicate 1025 7).length) :=
  ⟨rfl, chunked_read_equals_whole_read (fun _ => FileOutcome.ok (List.replicate 1025 7))
    "f" (List.replicate 1025 7) rfl⟩

/-- C4: the request built on the multipart branch never has Content-Type
application/json: its Content-Type is derived from the multipart boundary. -/
theorem multipart_content_type_never_json
    (api_key base_url boundary method endpoint : String)
    (data : JValue) (fileBytes : List Nat) :
    mapLookup (multipartRequest api_key base_url boundary method endpoint data fileBytes).headers
      "Content-Type" = some ("multipart/form-data; boundary=" ++ boundary) ∧
    mapLookup (multipartRequest api_key base_url boundary method endpoint data fileBytes).headers
      "Content-Type" ≠ some "application/json" := by
  refine ⟨rfl, ?_⟩
  intro h
  simp [multipartRequest, mapLookup] at h
  have hlen := congrArg String.length h
  rw [String.length_append] at hlen
  have h1 : "multipart/form-data; boundary=".length = 30 := rfl
  have h2 : "application/json".length = 16 := rfl
  omega

/-- C5: serializing a ResponseMode to its wire string and parsing it back
yields the same variant, with Block paired with blocking and Stream paired
with streaming. -/
theorem response_mode_wire_roundtrip :
    (∀ m : ResponseMode, ResponseMode.fromWireString (ResponseMode.wireString m) = some m) ∧
    ResponseMode.wireString ResponseMode.Block = "blocking" ∧
    ResponseMode.fromWireString "blocking" = some ResponseMode.Block ∧
    ResponseMode.wireString ResponseMode.Stream = "streaming" ∧
    ResponseMode.fromWireString "streaming" = some ResponseMode.Stream := by
  refine ⟨fun m => ?_, rfl, rfl, rfl, rfl⟩
  cases m <;> rfl

/-- C6: passing conversation_id c1 to the chat facade adds exactly the pair
conversation_id to c1 to the body: it is present there, absent from the body
built without it, and erasing that single key makes the two bodies equal. -/
theorem chat_conversation_id_frame (inputs : JValue) (query user : String)
    (rm : ResponseMode) (files : Option JValue) :
    bodyLookup (createChatMessageBody inputs query user rm (some "c1") files)
      "conversation_id" = some (JValue.str "c1") ∧
    bodyLookup (createChatMessageBody inputs query user rm none files)
      "conversation_id" = none ∧
    bodyErase (createChatMessageBody inputs query user rm (some "c1") files)
        "conversation_id"
      = bodyErase (createChatMessageBody inputs query user rm none files)
        "conversation_id" := by
  cases files <;>
    simp [createChatMessageBody, insertIntoValue, JValue.asObject, mapInsert,
      bodyLookup, bodyErase, jvLookup, mapLookup, eraseKey]

/-- C7: when the file cannot be opened or a chunk read fails, the multipart
construction fails with the file unavailable error, makes exactly one open
attempt and performs no network send, granted the bearer header value of the
client is well formed (the source builds that header before the file read). -/
theorem multipart_file_error_no_send (api_key base_url boundary method endpoint : String)
    (fs : String → FileOutcome) (data : JValue) (file_path : String)
    (hk : validHeaderValue ("Bearer " ++ api_key) = true)
    (hf : (fs file_path).isOk = false) :
    (send_request_with_files api_key base_url fs boundary method endpoint data file_path).result
        = Except.error DifyError.fileUnavailable ∧
    (send_request_with_files api_key base_url fs boundary method endpoint data file_path).openAttempts = 1 ∧
    (send_request_with_files api_key base_url fs boundary method endpoint data file_path).networkSends = 0 := by
  cases hfs : fs file_path with
  | openError =>
      simp [send_request_with_files, hk, async_read_file_to_vec, hfs]
  | readError pre =>
      simp [send_request_with_files, hk, async_read_file_to_vec, hfs]
  | ok content =>
      rw [hfs] at hf
      simp [FileOutcome.isOk] at hf

/-- Witness for C7 at a concrete client and a path whose open fails. -/
theorem multipart_file_error_no_send_witness :
    validHeaderValue ("Bearer " ++ "k") = true ∧
    (FileOutcome.isOk ((fun _ : String => FileOutcome.openError) "p") = false ∧
      ((send_request_with_files "k" "https://api.dify.ai/v1" (fun _ => FileOutcome.openError)
          "b" "POST" "/files/upload" (JValue.obj []) "p").result
          = Except.error DifyError.fileUnavailable ∧
        (send_request_with_files "k" "https://api.dify.ai/v1" (fun _ => FileOutcome.openError)
          "b" "POST" "/files/upload" (JValue.obj []) "p").openAttempts = 1 ∧
        (send_request_with_files "k" "https://api.dify.ai/v1" (fun _ => FileOutcome.openError)
          "b" "POST" "/files/upload" (JValue.obj []) "p").networkSends = 0)) :=
  ⟨by decide, rfl,
    multipart_file_error_no_send "k" "https://api.dify.ai/v1" "b" "POST" "/files/upload"
      (fun _ => FileOutcome.openError) (JValue.obj []) "p" (by decide) rfl⟩

/-- C8: the workflow run facade posts to /workflows/run a JSON body holding
inputs, response_mode and user, where user is the supplied string when one
is given and abc-123 when none is. -/
theorem workflow_run_body_keys (api_key base_url : String) (inputs : JValue)
    (rm : ResponseMode) (u : String) :
    (workflow_run api_key base_url inputs rm (some u)).method = "POST" ∧
    (workflow_run api_key base_url inputs rm (some u)).url = base_url ++ "/workflows/run" ∧
    (workflow_run api_key base_url inputs rm (some u)).body
        = RequestBody.jsonBody (workflowRunBody inputs rm (some u)) ∧
    jvLookup (workflowRunBody inputs rm (some u)) "inputs" = some inputs ∧
    jvLookup (workflowRunBody inputs rm (some u)) "response_mode"
        = some (JValue.str (ResponseMode.wireString rm)) ∧
    jvLookup (workflowRunBody inputs rm (some u)) "user" = some (JValue.str u) ∧
    jvLookup (workflowRunBody inputs rm none) "inputs" = some inputs ∧
    jvLookup (workflowRunBody inputs rm none) "response_mode"
        = some (JValue.str (ResponseMode.wireString rm)) ∧
    jvLookup (workflowRunBody inputs rm none) "user" = some (JValue.str "abc-123") :=
  ⟨rfl, rfl, rfl, rfl, rfl, rfl, rfl, rfl, rfl⟩

/-- C9: the stream flag of send_request has no effect on the built request:
the run with stream true builds the same request as the run with stream
false, for every method, endpoint, payload and query parameters. -/
theorem send_request_stream_has_no_effect (api_key base_url method endpoint : String)
    (json params : Option JValue) :
    send_request api_key base_url method endpoint json params true
      = send_request api_key base_url method endpoint json params false :=
  rfl

/-- C10: the payload value built by the chat and completion facades before the
optional inserts is always a JSON object, so the modelled as_object_mut
unwrap never panics: the body construction always returns some value. -/
theorem payload_insert_never_panics (inputs : JValue) (query user : String)
    (rm : ResponseMode) (cid : Option String) (files : Option JValue)
    (cInputs : JValue) (rmStr cUser : String) (cFiles : Option JValue) :
    (createChatMessageBody inputs query user rm cid files).isSome = true ∧
    (createCompletionMessageBody cInputs rmStr cUser cFiles).isSome = true := by
  constructor
  · cases cid <;> cases files <;>
      simp [createChatMessageBody, insertIntoValue, JValue.asObject]
  · cases cFiles <;>
      simp [createCompletionMessageBody, insertIntoValue, JValue.asObject]

end Dify
